import Mathlib

/-!
Verification of the MariaDB-to-Postgres bulk migration engine (migrate.py).

The definitions below are a shallow embedding of the engine:
type mapping (convert_mysql_type), value transcoding (convert_value),
idempotent table provisioning (create_table), constraint finalization
(create_indexes_and_constraints), the batched COPY load loop of
migrate_table_data / migrate_year_chunk, and the calendar-year chunk
planner (get_year_ranges).
-/

/-! ### String primitives mirroring the Python operations used by migrate.py -/

/-- Mirrors Python str.startswith on character lists: the first argument is the
pattern, the second the scanned text. -/
def listStartsWith : List Char → List Char → Bool
  | [], _ => true
  | _ :: _, [] => false
  | p :: ps, c :: cs => p == c && listStartsWith ps cs

/-- Mirrors the Python substring test `pat in s` on character lists. -/
def listHasSub (pat : List Char) : List Char → Bool
  | [] => pat.isEmpty
  | c :: cs => listStartsWith pat (c :: cs) || listHasSub pat cs

/-- Python `pat in s` (substring containment). -/
def strContainsSub (s pat : String) : Bool := listHasSub pat.data s.data

/-- Python `s.startswith(pat)`. -/
def strStartsWith (s pat : String) : Bool := listStartsWith pat.data s.data

/-- Python `s.lower()`. -/
def strToLower (s : String) : String := ⟨s.data.map Char.toLower⟩

/-- Python `c in s` for a single character. -/
def strContainsChar (s : String) (c : Char) : Bool := s.data.contains c

/-- Python `s[s.index( open paren ):s.index( close paren )+1]` as used in
convert_mysql_type to cut the parenthesized precision out of a type string. -/
def parenSlice (s : String) : String :=
  ⟨(s.data.take (s.data.findIdx (· == ')') + 1)).drop (s.data.findIdx (· == '('))⟩

/-! ### TypeMapper: TYPE_MAP and convert_mysql_type (migrate.py lines 102-184) -/

/-- The static MySQL-to-Postgres type lookup table TYPE_MAP. -/
def TYPE_MAP : List (String × String) := [
  ("tinyint(1)", "boolean"),
  ("bit(1)", "boolean"),
  ("tinyint", "smallint"),
  ("smallint", "smallint"),
  ("mediumint", "integer"),
  ("int", "integer"),
  ("bigint", "bigint"),
  ("decimal", "numeric"),
  ("float", "real"),
  ("double", "double precision"),
  ("date", "date"),
  ("datetime", "timestamp"),
  ("timestamp", "timestamptz"),
  ("time", "time"),
  ("char", "varchar"),
  ("varchar", "varchar"),
  ("text", "text"),
  ("mediumtext", "text"),
  ("longtext", "text"),
  ("binary", "bytea"),
  ("varbinary", "bytea"),
  ("blob", "bytea"),
  ("mediumblob", "bytea"),
  ("longblob", "bytea"),
  ("enum", "varchar")]

/-- convert_mysql_type(column_type, column_name): Convert MySQL column type to
Postgres type.  `base_type` is `column_type.lower().split(paren)[0]`, i.e. the
prefix of the lowered string before the first opening parenthesis.  The
column_name parameter is accepted but never used, exactly as in the source. -/
def convert_mysql_type (column_type column_name : String) : String :=
  let ct_lower := strToLower column_type
  let base_type : String := ⟨ct_lower.data.takeWhile (· != '(')⟩
  if strContainsSub ct_lower "tinyint(1)" then "boolean"
  else if strContainsSub ct_lower "bit(1)" then "boolean"
  else if base_type == "int" && strContainsSub ct_lower "unsigned" then "bigint"
  else if strContainsChar column_type '(' &&
          (base_type == "decimal" || base_type == "numeric" ||
           base_type == "varchar" || base_type == "char") then
    let precision := parenSlice column_type
    let pg_base := (TYPE_MAP.lookup base_type).getD "text"
    if base_type == "decimal" || base_type == "numeric" then pg_base ++ precision
    else if base_type == "varchar" then pg_base ++ precision
    else pg_base
  else (TYPE_MAP.lookup base_type).getD "text"

/-! ### RowTranscoder: convert_value (migrate.py lines 186-216) -/

/-- A Python runtime value as delivered by the MySQL driver: None, int, bytes,
str, bool, or a date/datetime object (carried with its str() rendering). -/
inductive Val where
  | none
  | int (n : Int)
  | bytes (bs : List Nat)
  | str (s : String)
  | bool (b : Bool)
  | date (rendered : String)
deriving DecidableEq

/-- Python truthiness `bool(value)` for the value forms above: nonzero ints,
nonempty bytes and nonempty strings are truthy; date objects are truthy. -/
def pyTruthy : Val → Bool
  | .none => false
  | .int n => n != 0
  | .bytes bs => !bs.isEmpty
  | .str s => !s.data.isEmpty
  | .bool b => b
  | .date _ => true

/-- Python `str(value)` as far as the zero-date check needs it: str and date
values render as themselves; bytes render with a leading b, so they can never
start with a digit; the rest is irrelevant to the check. -/
def pyStr : Val → String
  | .none => "None"
  | .int n => toString n
  | .bytes _ => "b"
  | .str s => s
  | .bool b => if b then "True" else "False"
  | .date rendered => rendered

/-- The NUL character stripped by convert_value. -/
def nulChar : Char := Char.ofNat 0

/-- convert_value(value, mysql_type, pg_type): Convert MySQL value to a
Postgres-compatible value.  Follows the source line by line: None passes
through; a bit column headed to boolean compares bytes against a single zero
byte and ints against 0, anything else through truthiness; a tinyint(1) column
headed to boolean goes through truthiness; sentinel zero dates become None;
NUL characters are stripped from str and bytes values. -/
def convert_value (value : Val) (mysql_type pg_type : String) : Val :=
  match value with
  | .none => .none
  | v =>
    if strContainsSub (strToLower mysql_type) "bit" && pg_type == "boolean" then
      match v with
      | .bytes bs => .bool (bs != [0])
      | .int n => .bool (n != 0)
      | _ => .bool (pyTruthy v)
    else if strContainsSub (strToLower mysql_type) "tinyint(1)" && pg_type == "boolean" then
      .bool (pyTruthy v)
    else if (pg_type == "date" || pg_type == "timestamp" || pg_type == "timestamptz")
            && strStartsWith (pyStr v) "0000-00-00" then
      .none
    else
      match v with
      | .str s =>
          if s.data.contains nulChar then .str ⟨s.data.filter (· != nulChar)⟩ else .str s
      | .bytes bs =>
          if bs.contains 0 then .bytes (bs.filter (· != 0)) else .bytes bs
      | v' => v'

/-! ### TableProvisioner: create_table (migrate.py lines 299-357) -/

/-- A source column as returned by get_table_schema: name, MySQL type string,
nullability, primary-key flag. -/
structure Column where
  name : String
  type : String
  nullable : Bool
  is_primary : Bool
deriving DecidableEq

/-- One emitted column definition of the CREATE TABLE statement: lowered name,
mapped Postgres type, and whether NOT NULL was appended. -/
structure ColDef where
  name : String
  pgType : String
  notNull : Bool
deriving DecidableEq

/-- The sink table produced by create_table: the UNLOGGED flag, the column
definitions, and the PRIMARY KEY clause columns (empty when the clause is
omitted). -/
structure TableDef where
  unlogged : Bool
  cols : List ColDef
  primaryKey : List String
deriving DecidableEq

/-- The quoted, lowercased primary-key column list built in the creation
branch of create_table (and returned by it). -/
def primaryKeyClause (columns : List Column) : List String :=
  (columns.filter (·.is_primary)).map (fun c => "\"" ++ strToLower c.name ++ "\"")

/-- One column definition as built in create_table: lowered name, mapped type,
NOT NULL appended exactly when the source column is not nullable. -/
def buildColDef (c : Column) : ColDef :=
  ⟨strToLower c.name, convert_mysql_type c.type c.name, !c.nullable⟩

/-- The table definition assembled by the creation branch of create_table:
the PRIMARY KEY clause is added only when constraints are not skipped. -/
def buildTableDef (columns : List Column) (skip_constraints unlogged : Bool) : TableDef :=
  ⟨unlogged, columns.map buildColDef,
   if skip_constraints then [] else primaryKeyClause columns⟩

/-- A table present in the sink database. -/
structure SinkTable where
  schema : String
  name : String
  defn : TableDef
deriving DecidableEq

/-- The sink database state: the set of existing tables. -/
structure PgState where
  tables : List SinkTable
deriving DecidableEq

/-- The information_schema existence probe at the top of create_table. -/
def tableExists (st : PgState) (schema tname : String) : Bool :=
  st.tables.any (fun t => t.schema == schema && t.name == tname)

/-- create_table(pg_conn, schema_name, table_name, columns, skip_constraints,
unlogged): if the table already exists the sink is untouched and the raw
primary-key names from the supplied column metadata are returned; otherwise the
table is created and the quoted lowercased primary-key list is returned. -/
def create_table (st : PgState) (schema_name table_name : String)
    (columns : List Column) (skip_constraints unlogged : Bool) :
    PgState × List String :=
  let table_lower := strToLower table_name
  if tableExists st schema_name table_lower then
    (st, (columns.filter (·.is_primary)).map (·.name))
  else
    (⟨st.tables ++ [⟨schema_name, table_lower,
        buildTableDef columns skip_constraints unlogged⟩]⟩,
     primaryKeyClause columns)

/-! ### ConstraintFinalizer: create_indexes_and_constraints (migrate.py 359-440) -/

/-- A secondary index as returned by get_table_indexes. -/
structure IndexInfo where
  name : String
  unique : Bool
  columns : List String

/-- One DDL action issued by create_indexes_and_constraints. -/
inductive DdlAction where
  | setLogged
  | addPrimaryKey (cols : List String)
  | createIndex (name : String) (unique : Bool)
deriving DecidableEq

/-- create_indexes_and_constraints, as the ordered list of DDL actions it
issues: first ALTER TABLE SET LOGGED, then ADD PRIMARY KEY when a primary key
was discovered, then one CREATE (UNIQUE) INDEX per secondary index. -/
def create_indexes_and_constraints (primary_keys : List String)
    (indexes : List IndexInfo) : List DdlAction :=
  DdlAction.setLogged ::
    ((if primary_keys.isEmpty then []
      else [DdlAction.addPrimaryKey (primary_keys.map strToLower)]) ++
     indexes.map (fun i => DdlAction.createIndex (strToLower i.name) i.unique))

/-! ### BulkLoader: the batched COPY loop of migrate_table_data (lines 699-775)
and migrate_year_chunk (lines 536-606).

Both loops read the source in LIMIT/OFFSET windows of BATCH_SIZE rows, COPY
each window into the open Postgres transaction, call rollback() on a COPY
failure, advance the offset unconditionally, and commit once after the loop.
`accept` is the sink: whether it accepts a given batch. -/

/-- Default MIGRATION_BATCH_SIZE (migrate.py line 48). -/
def BATCH_SIZE : Nat := 100000

/-- Fuel-driven splitting of the source rows into consecutive LIMIT/OFFSET
windows of n rows; the fuel is the row count, enough for any positive n. -/
def chunksOfAux (n : Nat) : Nat → List α → List (List α)
  | _, [] => []
  | 0, _ => []
  | fuel + 1, l => l.take n :: chunksOfAux n fuel (l.drop n)

/-- The LIMIT/OFFSET windows of size n over the source rows (the while loop
in the source requires a positive batch size). -/
def chunksOf (n : Nat) (l : List α) : List (List α) :=
  if n = 0 then [] else chunksOfAux n l.length l

/-- One iteration of the COPY loop on the open-transaction contents: an
accepted batch is appended to the uncommitted work; a rejected batch triggers
pg_conn.rollback(), which discards the whole open transaction. -/
def applyBatch (accept : List α → Bool) (pending : List α) (batch : List α) : List α :=
  if accept batch then pending ++ batch else []

/-- The rows committed by the load loop: batches fold over the open
transaction, and the single commit after the loop publishes what remains. -/
def loadRun (accept : List α → Bool) (batches : List (List α)) : List α :=
  batches.foldl (applyBatch accept) []

/-- The sequential load path of migrate_table_data (also the body of
migrate_year_chunk): the rows committed to the sink after paginating the
source into BATCH_SIZE windows and running the COPY loop. -/
def migrate_table_data (accept : List α → Bool) (bsize : Nat) (rows : List α) : List α :=
  loadRun accept (chunksOf bsize rows)

/-! ### ChunkPlanner: get_year_ranges (lines 471-496) and the per-year chunk
predicate of migrate_year_chunk (line 523: WHERE YEAR(date_column) = year). -/

/-- A source row, reduced to what the chunk planner sees: YEAR(date_column),
or none when the date column is NULL. -/
structure SrcRow where
  year : Option Int
deriving DecidableEq

/-- The non-NULL years of the rows (what MIN/MAX/COUNT with the IS NOT NULL
filter range over). -/
def yearsOf (rows : List SrcRow) : List Int := rows.filterMap (·.year)

/-- Python `range(min_year, max_year + 1)` as a list of Ints. -/
def yearRange (mn mx : Int) : List Int :=
  List.map (fun i : Nat => mn + (i : Int)) (List.range (mx - mn + 1).toNat)

/-- get_year_ranges: empty when the date column is NULL on every row,
otherwise every calendar year from the minimum to the maximum year present. -/
def get_year_ranges (rows : List SrcRow) : List Int :=
  match yearsOf rows with
  | [] => []
  | y :: ys => yearRange (ys.foldl min y) (ys.foldl max y)

/-- The rows selected by a year chunk: WHERE YEAR(date_column) = year.  A NULL
date never equals a year. -/
def chunkRows (rows : List SrcRow) (year : Int) : List SrcRow :=
  rows.filter (fun r => r.year == some year)

/-- migrate_year_chunk for one year, with a sink that accepts every batch: the
rows of that year are paginated into BATCH_SIZE windows and loaded. -/
def migrate_year_chunk (rows : List SrcRow) (year : Int) : List SrcRow :=
  migrate_table_data (fun _ => true) BATCH_SIZE (chunkRows rows year)

/-- Whether the year of a row is one of the planned chunk years (used to state the
chunk-completeness theorems). -/
def hasYearIn (Y : List Int) (r : SrcRow) : Bool :=
  match r.year with
  | Option.none => false
  | Option.some v => Y.contains v

/-! ### Concrete data used by the counterexamples and witnesses -/

/-- A single primary-key column as DESCRIBE reports it (uppercase name). -/
def pkColumns : List Column := [⟨"ID", "int(11)", false, true⟩]

/-- A non-nullable primary-key column for the fast-load provisioning claims. -/
def fastLoadColumns : List Column := [⟨"id", "int(11)", false, true⟩]

/-- A chunked table with one 2020 row and one row whose date column is NULL. -/
def nullDateRows : List SrcRow := [⟨some 2020⟩, ⟨Option.none⟩]

/-- A chunked table with rows only in 2019 and 2021 (a gap year in between). -/
def gapYearRows : List SrcRow := [⟨some 2019⟩, ⟨some 2021⟩]

/-- A chunked table with rows in 2020 and 2021 and one NULL-dated row. -/
def mixedYearRows : List SrcRow := [⟨some 2020⟩, ⟨some 2021⟩, ⟨Option.none⟩]

/-! ### Helper lemmas about the load loop -/

/-- A sink that accepts every batch commits exactly the concatenation of the
batches, in order. -/
theorem foldl_applyBatch_true (bs : List (List α)) :
    ∀ acc : List α, bs.foldl (applyBatch (fun _ => true)) acc = acc ++ bs.flatten := by
  induction bs with
  | nil => intro acc; simp
  | cons b bs ih =>
      intro acc
      simp [List.foldl_cons, applyBatch, ih, List.append_assoc]

/-- loadRun under an all-accepting sink is batch concatenation. -/
theorem loadRun_true (bs : List (List α)) : loadRun (fun _ => true) bs = bs.flatten := by
  simpa using foldl_applyBatch_true bs []

/-- The LIMIT/OFFSET windows cover the source rows exactly once. -/
theorem chunksOfAux_join :
    ∀ (fuel n : Nat) (l : List α), 0 < n → l.length ≤ fuel →
      (chunksOfAux n fuel l).flatten = l := by
  intro fuel
  induction fuel with
  | zero =>
      intro n l _ hl
      have : l = [] := List.eq_nil_of_length_eq_zero (Nat.le_zero.mp hl)
      subst this
      simp [chunksOfAux]
  | succ f ih =>
      intro n l hn hl
      cases l with
      | nil => simp [chunksOfAux]
      | cons a as =>
          simp only [List.length_cons] at hl
          simp only [chunksOfAux, List.flatten_cons]
          rw [ih n ((a :: as).drop n) hn]
          · exact List.take_append_drop n (a :: as)
          · simp only [List.length_drop, List.length_cons]
            omega

/-- chunksOf covers the source exactly once for any positive batch size. -/
theorem chunksOf_join (n : Nat) (hn : 0 < n) (l : List α) :
    (chunksOf n l).flatten = l := by
  unfold chunksOf
  rw [if_neg (by omega)]
  exact chunksOfAux_join l.length n l hn (Nat.le_refl _)

/-- With an all-accepting sink, a year chunk loads exactly the rows whose date
column falls in that year. -/
theorem migrate_year_chunk_eq (rows : List SrcRow) (y : Int) :
    migrate_year_chunk rows y = chunkRows rows y := by
  unfold migrate_year_chunk migrate_table_data
  rw [loadRun_true, chunksOf_join BATCH_SIZE (by decide)]

/-! ### Helper lemmas about foldl min / max over the years present -/

theorem foldl_min_le_init : ∀ (l : List Int) (a : Int), l.foldl min a ≤ a := by
  intro l
  induction l with
  | nil => intro a; simp
  | cons b bs ih =>
      intro a
      simpa using le_trans (ih (min a b)) (min_le_left a b)

theorem foldl_min_le_mem : ∀ (l : List Int) (a x : Int), x ∈ l → l.foldl min a ≤ x := by
  intro l
  induction l with
  | nil => intro a x hx; cases hx
  | cons b bs ih =>
      intro a x hx
      rcases List.mem_cons.mp hx with h | h
      · subst h
        simpa using le_trans (foldl_min_le_init bs (min a x)) (min_le_right a x)
      · simpa using ih (min a b) x h

theorem foldl_min_mem : ∀ (l : List Int) (a : Int), l.foldl min a = a ∨ l.foldl min a ∈ l := by
  intro l
  induction l with
  | nil => intro a; exact Or.inl rfl
  | cons b bs ih =>
      intro a
      simp only [List.foldl_cons]
      rcases ih (min a b) with h | h
      · rcases min_choice a b with hc | hc
        · exact Or.inl (h.trans hc)
        · exact Or.inr (List.mem_cons.mpr (Or.inl (h.trans hc)))
      · exact Or.inr (List.mem_cons.mpr (Or.inr h))

theorem le_foldl_max_init : ∀ (l : List Int) (a : Int), a ≤ l.foldl max a := by
  intro l
  induction l with
  | nil => intro a; simp
  | cons b bs ih =>
      intro a
      simpa using le_trans (le_max_left a b) (ih (max a b))

theorem le_foldl_max_mem : ∀ (l : List Int) (a x : Int), x ∈ l → x ≤ l.foldl max a := by
  intro l
  induction l with
  | nil => intro a x hx; cases hx
  | cons b bs ih =>
      intro a x hx
      rcases List.mem_cons.mp hx with h | h
      · subst h
        simpa using le_trans (le_max_right a x) (le_foldl_max_init bs (max a x))
      · simpa using ih (max a b) x h

theorem foldl_max_mem : ∀ (l : List Int) (a : Int), l.foldl max a = a ∨ l.foldl max a ∈ l := by
  intro l
  induction l with
  | nil => intro a; exact Or.inl rfl
  | cons b bs ih =>
      intro a
      simp only [List.foldl_cons]
      rcases ih (max a b) with h | h
      · rcases max_choice a b with hc | hc
        · exact Or.inl (h.trans hc)
        · exact Or.inr (List.mem_cons.mpr (Or.inl (h.trans hc)))
      · exact Or.inr (List.mem_cons.mpr (Or.inr h))

/-! ### Helper lemmas about yearRange and get_year_ranges -/

theorem mem_yearRange {y mn mx : Int} : y ∈ yearRange mn mx ↔ mn ≤ y ∧ y ≤ mx := by
  unfold yearRange
  constructor
  · intro h
    rcases List.mem_map.mp h with ⟨i, hi, rfl⟩
    have := List.mem_range.mp hi
    omega
  · rintro ⟨h1, h2⟩
    refine List.mem_map.mpr ⟨(y - mn).toNat, List.mem_range.mpr (by omega), by omega⟩

theorem yearRange_nodup (mn mx : Int) : (yearRange mn mx).Nodup := by
  unfold yearRange
  exact (List.nodup_range _).map (fun a b h => by omega)

theorem get_year_ranges_eq_nil (rows : List SrcRow) (h : yearsOf rows = []) :
    get_year_ranges rows = [] := by
  unfold get_year_ranges
  rw [h]

theorem get_year_ranges_eq_cons (rows : List SrcRow) (y₀ : Int) (ys : List Int)
    (h : yearsOf rows = y₀ :: ys) :
    get_year_ranges rows = yearRange (ys.foldl min y₀) (ys.foldl max y₀) := by
  unfold get_year_ranges
  rw [h]

theorem get_year_ranges_nodup (rows : List SrcRow) : (get_year_ranges rows).Nodup := by
  cases h : yearsOf rows with
  | nil => rw [get_year_ranges_eq_nil rows h]; exact List.nodup_nil
  | cons y₀ ys => rw [get_year_ranges_eq_cons rows y₀ ys h]; exact yearRange_nodup _ _

/-- Every year actually present in the date column gets a chunk. -/
theorem mem_get_year_ranges_of_mem_yearsOf (rows : List SrcRow) (v : Int)
    (hv : v ∈ yearsOf rows) : v ∈ get_year_ranges rows := by
  cases h : yearsOf rows with
  | nil => rw [h] at hv; cases hv
  | cons y₀ ys =>
      rw [get_year_ranges_eq_cons rows y₀ ys h]
      rw [h] at hv
      refine mem_yearRange.mpr ⟨?_, ?_⟩
      · rcases List.mem_cons.mp hv with hq | hq
        · subst hq; exact foldl_min_le_init ys v
        · exact foldl_min_le_mem ys y₀ v hq
      · rcases List.mem_cons.mp hv with hq | hq
        · subst hq; exact le_foldl_max_init ys v
        · exact le_foldl_max_mem ys y₀ v hq

/-! ### Counting rows across chunks -/

theorem sum_map_add (Y : List Int) (f g : Int → Nat) :
    (Y.map (fun y => f y + g y)).sum = (Y.map f).sum + (Y.map g).sum := by
  induction Y with
  | nil => rfl
  | cons y ys ih =>
      simp only [List.map_cons, List.sum_cons, ih]
      omega

theorem indicator_sum_zero (ys : List Int) (v : Int) (hv : v ∉ ys) :
    (ys.map (fun y => if (some v : Option Int) == some y then 1 else 0)).sum = 0 := by
  induction ys with
  | nil => rfl
  | cons z zs ih =>
      have hvz : v ≠ z := fun h => hv (List.mem_cons.mpr (Or.inl h))
      have hvzs : v ∉ zs := fun h => hv (List.mem_cons.mpr (Or.inr h))
      simp only [List.map_cons, List.sum_cons, ih hvzs]
      simp [hvz]

theorem indicator_sum_some (Y : List Int) (hY : Y.Nodup) (v : Int) :
    (Y.map (fun y => if (some v : Option Int) == some y then 1 else 0)).sum
      = if Y.contains v then 1 else 0 := by
  induction Y with
  | nil => rfl
  | cons y ys ih =>
      rcases List.nodup_cons.mp hY with ⟨hy, hys⟩
      by_cases hvy : v = y
      · subst hvy
        simp only [List.map_cons, List.sum_cons, indicator_sum_zero ys v hy]
        simp
      · simp only [List.map_cons, List.sum_cons, ih hys]
        simp [List.contains_cons, hvy, Ne.symm hvy]

theorem indicator_sum (Y : List Int) (hY : Y.Nodup) (r : SrcRow) :
    (Y.map (fun y => if r.year == some y then 1 else 0)).sum
      = if hasYearIn Y r then 1 else 0 := by
  cases hr : r.year with
  | none =>
      simp only [hr, hasYearIn]
      induction Y with
      | nil => rfl
      | cons y ys ihy =>
          simp only [List.map_cons, List.sum_cons, ihy (List.nodup_cons.mp hY).2]
          simp
  | some v =>
      simp only [hr, hasYearIn]
      exact indicator_sum_some Y hY v

theorem chunkRows_cons_length (r : SrcRow) (rs : List SrcRow) (y : Int) :
    (chunkRows (r :: rs) y).length
      = (chunkRows rs y).length + (if r.year == some y then 1 else 0) := by
  unfold chunkRows
  cases h : (r.year == some y) <;> simp [List.filter_cons, h]

/-- Summing the chunk sizes over any duplicate-free year list counts exactly
the rows whose year is in the list. -/
theorem chunk_sum (Y : List Int) (hY : Y.Nodup) :
    ∀ rows : List SrcRow,
      (Y.map (fun y => (chunkRows rows y).length)).sum
        = (rows.filter (hasYearIn Y)).length := by
  intro rows
  induction rows with
  | nil => simp [chunkRows]
  | cons r rs ih =>
      have hstep :
          (Y.map (fun y => (chunkRows (r :: rs) y).length)).sum
            = (Y.map (fun y => (chunkRows rs y).length)).sum
              + (Y.map (fun y => if r.year == some y then 1 else 0)).sum := by
        simp only [chunkRows_cons_length]
        rw [← sum_map_add]
      rw [hstep, ih, indicator_sum Y hY r]
      cases h : hasYearIn Y r <;> simp [List.filter_cons, h]

/-- Over the planned year list, the per-year chunks cover exactly the rows
with a non-NULL date column. -/
theorem filter_year_in_range (rows : List SrcRow) :
    rows.filter (hasYearIn (get_year_ranges rows)) = rows.filter (fun r => !r.year.isNone) := by
  apply List.filter_congr
  intro r hr
  cases hy : r.year with
  | none => simp [hasYearIn, hy]
  | some v =>
      simp only [hasYearIn, hy, Option.isNone_some, Bool.not_false]
      have hv : v ∈ yearsOf rows := by
        unfold yearsOf
        exact List.mem_filterMap.mpr ⟨r, hr, hy⟩
      have hmem : v ∈ get_year_ranges rows := mem_get_year_ranges_of_mem_yearsOf rows v hv
      simpa using hmem

/-! ### Claim theorems -/

/-- C1: the claim says a rejected batch is rolled back alone, with every batch
submitted before it still loading.  Evaluating the load loop at a concrete
failing input refutes this: with three one-row batches and the sink rejecting
the middle one, the rollback after the failed COPY discards the whole open
transaction — commit happens only once, after the loop — so the first batch is
lost together with the rejected one and only the third batch is committed;
the loop does advance to the later offset windows without retrying. -/
theorem c1_rollback_discards_prior_batches :
    migrate_table_data (fun b => !(b == [20])) 1 [10, 20, 30] = [30]
    ∧ migrate_table_data (fun b => !(b == [20])) 1 [10, 20, 30] ≠ [10, 30] := by
  decide

/-- C2 counterexample: the first create_table call (table absent) returns the
lowercased, double-quoted primary-key list, while the second call (table now
present) returns the raw names from the column metadata — for a primary-key
column named ID the two returned lists differ. -/
theorem c2_counterexample :
    (create_table ⟨[]⟩ "s" "T" pkColumns false false).2 = ["\"id\""]
    ∧ (create_table (create_table ⟨[]⟩ "s" "T" pkColumns false false).1 "s" "T"
        pkColumns false false).2 = ["ID"]
    ∧ (["ID"] : List String) ≠ ["\"id\""] := by
  decide

/-- C2 (amended): calling create_table against an existing sink table never
re-creates or drops anything — the sink state is returned unchanged — and the
call returns the primary-key column names exactly as supplied in the column
metadata (the first, creating call instead returns them lowercased and
double-quoted). -/
theorem c2_amended (st : PgState) (schema_name table_name : String)
    (columns : List Column) (skip_constraints unlogged : Bool)
    (h : tableExists st schema_name (strToLower table_name) = true) :
    (create_table st schema_name table_name columns skip_constraints unlogged).1 = st
    ∧ (create_table st schema_name table_name columns skip_constraints unlogged).2
        = (columns.filter (·.is_primary)).map (·.name) := by
  unfold create_table
  simp [h]

/-- C2 witness: the amended idempotence fact at a concrete one-column table. -/
theorem c2_amended_witness :
    tableExists (create_table ⟨[]⟩ "s" "T" pkColumns false false).1 "s"
        (strToLower "T") = true
    ∧ ((create_table (create_table ⟨[]⟩ "s" "T" pkColumns false false).1 "s" "T"
          pkColumns false false).1
        = (create_table ⟨[]⟩ "s" "T" pkColumns false false).1
      ∧ (create_table (create_table ⟨[]⟩ "s" "T" pkColumns false false).1 "s" "T"
          pkColumns false false).2
        = (pkColumns.filter (·.is_primary)).map (·.name)) :=
  ⟨by decide,
   c2_amended (create_table ⟨[]⟩ "s" "T" pkColumns false false).1 "s" "T"
     pkColumns false false (by decide)⟩

/-- C3 counterexample: a table with one 2020 row and one row whose date column
is NULL.  The planner emits the single chunk for 2020 and the chunks together
load one row, while the pre-chunking row count is two: the NULL-dated row
belongs to no chunk, so the union of chunk loads falls short of the claim. -/
theorem c3_counterexample :
    ((get_year_ranges nullDateRows).map
        (fun y => (migrate_year_chunk nullDateRows y).length)).sum = 1
    ∧ nullDateRows.length = 2 := by
  decide

/-- C3 (amended): for a chunked table the per-year predicates are pairwise
disjoint (a row matches two year chunks only if the years are equal, and the
planned year list has no duplicates), and the union of the rows loaded across
all chunks equals the count of rows whose date column is non-NULL — which is
the pre-chunking row count only when the date column has no NULLs. -/
theorem c3_amended (rows : List SrcRow) (y₁ y₂ : Int) (hne : y₁ ≠ y₂) :
    ((get_year_ranges rows).map (fun y => (migrate_year_chunk rows y).length)).sum
        = (rows.filter (fun r => !r.year.isNone)).length
    ∧ (get_year_ranges rows).Nodup
    ∧ chunkRows rows y₁ ∩ chunkRows rows y₂ = [] := by
  refine ⟨?_, get_year_ranges_nodup rows, ?_⟩
  · have h : ∀ y, migrate_year_chunk rows y = chunkRows rows y :=
      migrate_year_chunk_eq rows
    simp only [h]
    rw [chunk_sum _ (get_year_ranges_nodup rows) rows, filter_year_in_range]
  · apply List.eq_nil_iff_forall_not_mem.mpr
    intro r hr
    rw [List.mem_inter_iff] at hr
    rcases hr with ⟨h1, h2⟩
    simp only [chunkRows] at h1 h2
    have e1 := (List.mem_filter.mp h1).2
    have e2 := (List.mem_filter.mp h2).2
    rw [beq_iff_eq] at e1 e2
    rw [e1] at e2
    exact hne (Option.some.inj e2)

/-- C3 witness: the amended chunk-completeness fact at a concrete table with
rows in 2020 and 2021 plus one NULL-dated row. -/
theorem c3_amended_witness :
    ((2020 : Int) ≠ 2021)
    ∧ (((get_year_ranges mixedYearRows).map
          (fun y => (migrate_year_chunk mixedYearRows y).length)).sum
        = (mixedYearRows.filter (fun r => !r.year.isNone)).length
      ∧ (get_year_ranges mixedYearRows).Nodup
      ∧ chunkRows mixedYearRows 2020 ∩ chunkRows mixedYearRows 2021 = []) :=
  ⟨by decide, c3_amended mixedYearRows 2020 2021 (by decide)⟩

/-- C4 counterexample: with rows only in 2019 and 2021, get_year_ranges emits
the full contiguous range 2019..2021 — including 2020, a year not present in
the column at all, whose chunk selects no rows.  The claim that no chunk is
emitted for a rowless year is therefore false. -/
theorem c4_counterexample :
    get_year_ranges gapYearRows = [2019, 2020, 2021]
    ∧ (2020 : Int) ∈ get_year_ranges gapYearRows
    ∧ (2020 : Int) ∉ yearsOf gapYearRows
    ∧ chunkRows gapYearRows 2020 = [] := by
  decide

/-- C4 (amended): the chunk planner emits one chunk per calendar year in the
contiguous span of the years present: a year is planned exactly when some
present year bounds it from below and some present year bounds it from above.
Every present year gets a chunk, but interior years with no rows get one too
(such a chunk simply loads zero rows). -/
theorem c4_amended (rows : List SrcRow) (y : Int) :
    y ∈ get_year_ranges rows
      ↔ ((∃ a ∈ yearsOf rows, a ≤ y) ∧ (∃ b ∈ yearsOf rows, y ≤ b)) := by
  cases h : yearsOf rows with
  | nil =>
      rw [get_year_ranges_eq_nil rows h]
      simp
  | cons y₀ ys =>
      rw [get_year_ranges_eq_cons rows y₀ ys h, mem_yearRange]
      constructor
      · rintro ⟨h1, h2⟩
        refine ⟨⟨ys.foldl min y₀, ?_, h1⟩, ⟨ys.foldl max y₀, ?_, h2⟩⟩
        · rcases foldl_min_mem ys y₀ with hm | hm
          · rw [hm]; exact List.mem_cons_self y₀ ys
          · exact List.mem_cons_of_mem y₀ hm
        · rcases foldl_max_mem ys y₀ with hm | hm
          · rw [hm]; exact List.mem_cons_self y₀ ys
          · exact List.mem_cons_of_mem y₀ hm
      · rintro ⟨⟨a, ha, hay⟩, ⟨b, hb, hyb⟩⟩
        constructor
        · rcases List.mem_cons.mp ha with hq | hq
          · subst hq; exact le_trans (foldl_min_le_init ys a) hay
          · exact le_trans (foldl_min_le_mem ys y₀ a hq) hay
        · rcases List.mem_cons.mp hb with hq | hq
          · subst hq; exact le_trans hyb (le_foldl_max_init ys b)
          · exact le_trans hyb (le_foldl_max_mem ys y₀ b hq)

/-- C5 counterexample: fast-load provisioning of a non-nullable column still
emits the NOT NULL column constraint, so the created table does not have
\"no constraints of any kind\". -/
theorem c5_counterexample :
    ¬ ((buildTableDef fastLoadColumns true true).unlogged = true
       ∧ (buildTableDef fastLoadColumns true true).primaryKey = []
       ∧ ∀ cd ∈ (buildTableDef fastLoadColumns true true).cols, cd.notNull = false) := by
  decide

/-- C5 (amended): fast-load provisioning (skip_constraints and unlogged both
set) creates the table UNLOGGED and omits the PRIMARY KEY clause, but keeps
the NOT NULL column constraint on every non-nullable column; finalization
afterwards re-enables write-ahead logging as its first action and adds the
primary key among its actions. -/
theorem c5_amended (columns : List Column) (primary_keys : List String)
    (indexes : List IndexInfo) (hpk : primary_keys ≠ []) :
    (buildTableDef columns true true).unlogged = true
    ∧ (buildTableDef columns true true).primaryKey = []
    ∧ (buildTableDef columns true true).cols.map ColDef.notNull
        = columns.map (fun c => !c.nullable)
    ∧ (create_indexes_and_constraints primary_keys indexes).head?
        = some DdlAction.setLogged
    ∧ DdlAction.addPrimaryKey (primary_keys.map strToLower)
        ∈ create_indexes_and_constraints primary_keys indexes := by
  refine ⟨rfl, rfl, ?_, rfl, ?_⟩
  · simp [buildTableDef, buildColDef, List.map_map, Function.comp]
  · cases primary_keys with
    | nil => exact absurd rfl hpk
    | cons p ps => simp [create_indexes_and_constraints]

/-- C5 witness: the amended fast-load fact at a concrete non-nullable
primary-key column. -/
theorem c5_amended_witness :
    (["id"] : List String) ≠ []
    ∧ ((buildTableDef fastLoadColumns true true).unlogged = true
      ∧ (buildTableDef fastLoadColumns true true).primaryKey = []
      ∧ (buildTableDef fastLoadColumns true true).cols.map ColDef.notNull
          = fastLoadColumns.map (fun c => !c.nullable)
      ∧ (create_indexes_and_constraints ["id"] []).head? = some DdlAction.setLogged
      ∧ DdlAction.addPrimaryKey (["id"].map strToLower)
          ∈ create_indexes_and_constraints ["id"] []) :=
  ⟨by decide, c5_amended fastLoadColumns ["id"] [] (by decide)⟩

/-- C6 counterexample: char(10) is in the parameterized-type branch of the
mapper, but its branch returns the bare base type: the (10) length parameter
is dropped, not retained verbatim. -/
theorem c6_counterexample :
    convert_mysql_type "char(10)" "code" = "varchar"
    ∧ strContainsSub (convert_mysql_type "char(10)" "code") "(10)" = false := by
  decide

/-- C6 (amended): decimal/numeric and varchar source types keep their
parenthesized parameter verbatim in the mapped type, but char types lose it:
char(n) maps to plain varchar. -/
theorem c6_amended :
    convert_mysql_type "decimal(10,2)" "amount" = "numeric(10,2)"
    ∧ convert_mysql_type "decimal(18,4)" "amount" = "numeric(18,4)"
    ∧ convert_mysql_type "varchar(50)" "label" = "varchar(50)"
    ∧ convert_mysql_type "varchar(255)" "label" = "varchar(255)"
    ∧ convert_mysql_type "char(10)" "code" = "varchar"
    ∧ convert_mysql_type "char(2)" "code" = "varchar" := by
  decide

/-- C7 counterexample: for the source string int unsigned — no parenthesized
display width — the extracted base type is the whole string, so the unsigned
widening rule does not fire and the lookup falls back to text, not bigint. -/
theorem c7_counterexample :
    convert_mysql_type "int unsigned" "qty" = "text"
    ∧ convert_mysql_type "int unsigned" "qty" ≠ "bigint" := by
  decide

/-- C7 (amended): the unsigned 32-bit widening to bigint fires exactly when
the text before the first parenthesis is the bare base type int — so forms
with a display width such as int(10) unsigned widen to bigint, while the
parenthesis-free int unsigned misses the rule (its base string is
int unsigned) and falls through the lookup to the text fallback. -/
theorem c7_amended :
    convert_mysql_type "int(10) unsigned" "qty" = "bigint"
    ∧ convert_mysql_type "int(11) unsigned" "qty" = "bigint"
    ∧ convert_mysql_type "INT(10) UNSIGNED" "qty" = "bigint"
    ∧ convert_mysql_type "int unsigned" "qty" = "text" := by
  decide

/-- C8 counterexample: a zero flag value delivered as the single byte 0x00 in
a tinyint(1) column transcodes through Python truthiness of a nonempty bytes
object and yields true, while the same zero delivered as an int yields false —
so a zero raw value does not always transcode to false. -/
theorem c8_counterexample :
    convert_value (Val.bytes [0]) "tinyint(1)" "boolean" = Val.bool true
    ∧ convert_value (Val.int 0) "tinyint(1)" "boolean" = Val.bool false := by
  decide

/-- C8 (amended): for bit(1) columns mapped to boolean the transcoder yields
true exactly on nonzero values whether the driver delivers an int or a single
byte, and for tinyint(1) columns the same holds for integer-delivered values;
a tinyint(1) zero delivered as bytes instead follows Python truthiness and
comes out true. -/
theorem c8_amended :
    (∀ n : Int, convert_value (Val.int n) "bit(1)" "boolean" = Val.bool (n != 0))
    ∧ (∀ b : Nat, convert_value (Val.bytes [b]) "bit(1)" "boolean" = Val.bool (b != 0))
    ∧ (∀ n : Int, convert_value (Val.int n) "tinyint(1)" "boolean" = Val.bool (n != 0)) := by
  refine ⟨fun n => rfl, fun b => ?_, fun n => rfl⟩
  cases b with
  | zero => rfl
  | succ k => rfl

/-- C9: the type mapper is a deterministic pure function of the source type
string alone — repeated calls agree, and the result is independent of the
column name argument (the only other input). -/
theorem c9_type_mapper_pure :
    (∀ column_type cname : String,
        convert_mysql_type column_type cname = convert_mysql_type column_type cname)
    ∧ ∀ (column_type n₁ n₂ : String),
        convert_mysql_type column_type n₁ = convert_mysql_type column_type n₂ :=
  ⟨fun _ _ => rfl, fun _ _ _ => rfl⟩

/-- C10 counterexample: the substring test matches tinyint(1) and bit(1) only
together with the closing parenthesis, so the wider types named by the claim
do not match: tinyint(11) maps to smallint, tinyint(12) unsigned to smallint
and bit(16) to text — none of them to boolean. -/
theorem c10_counterexample :
    convert_mysql_type "tinyint(11)" "flags" = "smallint"
    ∧ convert_mysql_type "tinyint(11)" "flags" ≠ "boolean"
    ∧ convert_mysql_type "tinyint(12) unsigned" "flags" ≠ "boolean"
    ∧ convert_mysql_type "bit(16)" "mask" ≠ "boolean" := by
  decide

/-- C10 (amended): the flag rule is substring matching on the literal tokens
tinyint(1) and bit(1) including the closing parenthesis: tinyint(1) unsigned
does map to boolean because it contains tinyint(1) as a substring, but
tinyint(11), tinyint(12) unsigned and bit(16) contain no such token and map
through the base-type lookup to smallint, smallint and text respectively. -/
theorem c10_amended :
    convert_mysql_type "tinyint(1) unsigned" "flag" = "boolean"
    ∧ convert_mysql_type "TINYINT(1)" "flag" = "boolean"
    ∧ convert_mysql_type "bit(1)" "flag" = "boolean"
    ∧ convert_mysql_type "tinyint(11)" "flags" = "smallint"
    ∧ convert_mysql_type "tinyint(12) unsigned" "flags" = "smallint"
    ∧ convert_mysql_type "bit(16)" "mask" = "text" := by
  decide
